import Mathlib

/-!
Shallow embedding of the gateway dispatcher core of `iotpi-helium/gateway-rs`.

The definitions below are translated from the repository sources:
  * `src/region.rs`       — region codec and regional radio parameters
  * `src/dispatcher.rs`   — dispatcher state machine and message handling
  * `src/service/gateway/response.rs` — decoding of streamed gateway responses

Rust machine integers (`u32`, `u64`) are modelled as `Nat` (none of the
operations involved can overflow: heights, retry counters and sizes only grow
by small increments), `i32` as `Int`.  Fallible Rust functions returning
`Result` are modelled with `Except`.  Asynchronous effects (messages sent to
router tasks, replies on response channels, forwards to the PoC worker) are
modelled as an explicit list of emitted `Effect`s, in emission order.
-/

namespace GatewayRs

/-! ### Region codec (`src/region.rs`)

`ProtoRegion` embeds the `helium_proto::Region` enumeration together with its
prost-generated integer discriminants (`from_i32` / `Into<i32>`). -/

inductive ProtoRegion where
  | us915
  | eu868
  | eu433
  | cn470
  | cn779
  | au915
  | as923_1
  | kr920
  | in865
  | as923_2
  | as923_3
  | as923_4
  | as923_1b
  | cd900_1a
  deriving DecidableEq, Repr

/-- Integer discriminant of the `helium_proto::Region` enum
(`impl From<Region> for i32`). -/
def ProtoRegion.to_i32 : ProtoRegion → Int
  | .us915 => 0
  | .eu868 => 1
  | .eu433 => 2
  | .cn470 => 3
  | .cn779 => 4
  | .au915 => 5
  | .as923_1 => 6
  | .kr920 => 7
  | .in865 => 8
  | .as923_2 => 9
  | .as923_3 => 10
  | .as923_4 => 11
  | .as923_1b => 12
  | .cd900_1a => 13

/-- Embedding of `helium_proto::Region::from_i32`: the prost-generated inverse of the
discriminant assignment; unknown integers yield `none`. -/
def ProtoRegion.from_i32 (v : Int) : Option ProtoRegion :=
  if v = 0 then some .us915
  else if v = 1 then some .eu868
  else if v = 2 then some .eu433
  else if v = 3 then some .cn470
  else if v = 4 then some .cn779
  else if v = 5 then some .au915
  else if v = 6 then some .as923_1
  else if v = 7 then some .kr920
  else if v = 8 then some .in865
  else if v = 9 then some .as923_2
  else if v = 10 then some .as923_3
  else if v = 11 then some .as923_4
  else if v = 12 then some .as923_1b
  else if v = 13 then some .cd900_1a
  else none

/-- Embedding of `Region` (`src/region.rs`): a newtype around the proto region tag. -/
structure Region where
  proto : ProtoRegion
  deriving DecidableEq, Repr

/-- Embedding of `impl fmt::Display for Region` (`src/region.rs` lines 70-89). -/
def Region.render (r : Region) : String :=
  match r.proto with
  | .us915 => "US915"
  | .eu868 => "EU868"
  | .eu433 => "EU433"
  | .cn470 => "CN470"
  | .cn779 => "CN779"
  | .au915 => "AU915"
  | .as923_1 => "AS923_1"
  | .as923_1b => "AS923_1B"
  | .as923_2 => "AS923_2"
  | .as923_3 => "AS923_3"
  | .as923_4 => "AS923_4"
  | .kr920 => "KR920"
  | .in865 => "IN865"
  | .cd900_1a => "CD900_1A"

/-- Embedding of `RegionVisitor::visit_str` (`src/region.rs` lines 37-63): exact string
match against the closed set of tags, error otherwise. -/
def Region.parse (value : String) : Except String Region :=
  if value = "US915" then .ok ⟨.us915⟩
  else if value = "EU868" then .ok ⟨.eu868⟩
  else if value = "EU433" then .ok ⟨.eu433⟩
  else if value = "CN470" then .ok ⟨.cn470⟩
  else if value = "CN779" then .ok ⟨.cn779⟩
  else if value = "AU915" then .ok ⟨.au915⟩
  else if value = "AS923_1" then .ok ⟨.as923_1⟩
  else if value = "AS923_1B" then .ok ⟨.as923_1b⟩
  else if value = "AS923_2" then .ok ⟨.as923_2⟩
  else if value = "AS923_3" then .ok ⟨.as923_3⟩
  else if value = "AS923_4" then .ok ⟨.as923_4⟩
  else if value = "KR920" then .ok ⟨.kr920⟩
  else if value = "IN865" then .ok ⟨.in865⟩
  else if value = "CD900_1A" then .ok ⟨.cd900_1a⟩
  else .error ("unsupported region: " ++ value)

/-- Embedding of `Region::from_i32` (`src/region.rs` lines 104-108). -/
def Region.from_i32 (v : Int) : Except String Region :=
  match ProtoRegion.from_i32 v with
  | some r => .ok ⟨r⟩
  | none => .error ("unsupported region " ++ toString v)

/-- Embedding of `impl From<Region> for i32` (`src/region.rs` lines 91-95). -/
def Region.to_i32 (r : Region) : Int :=
  r.proto.to_i32

/-! ### Regional radio parameters (`src/region.rs`)

Embedding of the `helium_proto` structures `BlockchainRegionParamsV1`,
`BlockchainRegionParamV1`, `BlockchainRegionSpreadingV1` (the message holding
the tagged spreading list) and `TaggedSpreading`, as used by `RegionParams`. -/

structure TaggedSpreading where
  region_spreading : Int
  max_packet_size : Nat
  deriving DecidableEq, Repr

structure BlockchainRegionSpreadingV1 where
  tagged_spreading : List TaggedSpreading
  deriving DecidableEq, Repr

structure BlockchainRegionParamV1 where
  max_eirp : Nat
  bandwidth : Nat
  spreading : Option BlockchainRegionSpreadingV1
  deriving DecidableEq, Repr

/-- Embedding of `RegionParams` (`src/region.rs` line 112): newtype around
`BlockchainRegionParamsV1`, whose payload is the `region_params` list. -/
structure RegionParams where
  region_params : List BlockchainRegionParamV1
  deriving DecidableEq, Repr

/-- The `helium_proto::RegionSpreading` enum (spreading-factor tags). -/
inductive RegionSpreading where
  | sfInvalid
  | sf7
  | sf8
  | sf9
  | sf10
  | sf11
  | sf12
  deriving DecidableEq, Repr

/-- Embedding of `helium_proto::RegionSpreading::from_i32`: prost-generated inverse of the
discriminants `SF_INVALID = 0, SF7 = 1, …, SF12 = 6`. -/
def RegionSpreading.from_i32 (v : Int) : Option RegionSpreading :=
  if v = 0 then some .sfInvalid
  else if v = 1 then some .sf7
  else if v = 2 then some .sf8
  else if v = 3 then some .sf9
  else if v = 4 then some .sf10
  else if v = 5 then some .sf11
  else if v = 6 then some .sf12
  else none

/-- Embedding of `spreading_to_str` (`src/region.rs` lines 155-165). -/
def spreading_to_str (spreading : TaggedSpreading) : Option String :=
  (RegionSpreading.from_i32 spreading.region_spreading).bind fun rs =>
    match rs with
    | .sf7 => some "SF7"
    | .sf8 => some "SF8"
    | .sf9 => some "SF9"
    | .sf10 => some "SF10"
    | .sf11 => some "SF11"
    | .sf12 => some "SF12"
    | .sfInvalid => none

/-- Embedding of `RegionParams::max_eirp` (`src/region.rs` lines 121-123):
maximum of `max_eirp` across channels (`Iterator::max` on an empty iterator is
`None`). -/
def RegionParams.max_eirp (rp : RegionParams) : Option Nat :=
  (rp.region_params.map (fun p => p.max_eirp)).max?

/-- Embedding of `RegionParams::bandwidth` (`src/region.rs` lines 125-128):
the bandwidth of the first channel, if any. -/
def RegionParams.bandwidth (rp : RegionParams) : Option Nat :=
  rp.region_params.head?.map (fun p => p.bandwidth)

/-- Embedding of `RegionParams::spreading` (`src/region.rs` lines 130-144). -/
def RegionParams.spreading (rp : RegionParams) (packet_size : Nat) : Option String :=
  ((((rp.region_params.head?.bind (fun param => param.spreading)).map
      (fun spreading => spreading.tagged_spreading)).bind
      (fun tagged_spreading =>
        tagged_spreading.find? (fun ts => ts.max_packet_size ≥ packet_size))).bind
    spreading_to_str)

/-- Embedding of `RegionParams::datarate` (`src/region.rs` lines 146-152). -/
def RegionParams.datarate (rp : RegionParams) (packet_size : Nat) : Option String :=
  (rp.spreading packet_size).bind fun spreading =>
    (rp.bandwidth.map (fun bw => bw / 1000)).map fun bk =>
      spreading ++ "BW" ++ toString bk

/-! ### Keyed URIs, packets and routing descriptors

`KeyedUri` is `(public_key, uri)`; both components are abstracted to opaque
identifiers (`Nat`) — only their equality matters to the dispatcher. -/

structure KeyedUri where
  pubkey : Nat
  uri : Nat
  deriving DecidableEq, Repr

/-- A radio packet; `routing` abstracts `packet.routing()` (the routing
info the `matches_routing_info` predicate is applied to) and `payload` the
rest of the packet, which the dispatcher treats as opaque. -/
structure Packet where
  routing : Nat
  payload : Nat
  deriving DecidableEq, Repr

/-- A routing descriptor (`router::Routing`): OUI, URI list and the routing
predicate.  The `router` module is not part of the sources under review, so
the predicate over routing infos is kept abstract as a boolean function. -/
structure Routing where
  oui : Nat
  uris : List KeyedUri
  matches_routing_info : Nat → Bool

/-- Modelled from the spec: `Routing::contains_uri` lives in the `router`
module, which is not among the sources; per the spec the routing descriptor
is `(OUI, list_of_KeyedUri, routing_predicate)` and the predicate answers
whether a URI "is contained in the descriptor's URI list". -/
def Routing.contains_uri (r : Routing) (uri : KeyedUri) : Bool :=
  r.uris.contains uri

/-- Modelled from the spec: the wire form of one routing descriptor inside a
routing update.  `Routing::from_proto` (in the absent `router` module) decodes
it and may fail; the spec only says "Decoding errors on individual routing
entries inside a routing batch are logged and skipped", so a proto is embedded
as its decode outcome. -/
inductive RoutingProto where
  | decoded (routing : Routing)
  | invalid

/-- Modelled from the spec: `Routing::from_proto` resolves to the proto's
decode outcome. -/
def Routing.from_proto : RoutingProto → Except String Routing
  | .decoded routing => .ok routing
  | .invalid => .error "failed to parse routing"

/-! ### Streamed gateway responses (`src/service/gateway/response.rs`)

`GatewayRespV1` is the envelope carrying `height`, `block_age` and an optional
tagged message; the `Response` trait methods match the expected variant or
fail with `Error::custom("Unexpected gateway message …")`. -/

inductive Msg where
  | routingStreamedResp (routings : List RoutingProto)
  | regionParamsStreamedResp (region : Int)
  | configUpdateStreamedResp (keys : List String)
  | pocChallengeResp (challenge : Nat)

structure GatewayRespV1 where
  height : Nat
  block_age : Nat
  msg : Option Msg

/-- Embedding of `Response::routings` for `GatewayRespV1` (`response.rs` lines 32-38). -/
def GatewayRespV1.routings (r : GatewayRespV1) : Except String (List RoutingProto) :=
  match r.msg with
  | some (.routingStreamedResp routings) => .ok routings
  | _ => .error "Unexpected gateway message"

/-- Embedding of `Response::region` for `GatewayRespV1` (`response.rs` lines 40-46). -/
def GatewayRespV1.region (r : GatewayRespV1) : Except String Region :=
  match r.msg with
  | some (.regionParamsStreamedResp region) => Region.from_i32 region
  | _ => .error "Unexpected gateway message"

/-! ### Dispatcher state and effects (`src/dispatcher.rs`) -/

/-- The relevant arms of the repository's `Error` type (`error` module). -/
inductive DispatchError where
  | noService
  | gatewayServiceCheck (block_age : Nat) (max_age : Nat)
  | rpc
  | custom (msg : String)
  deriving DecidableEq, Repr

/-- Embedding of `HeightResponse` (`src/dispatcher.rs` lines 39-45). -/
structure HeightResponse where
  gateway : KeyedUri
  height : Nat
  block_age : Nat
  gateway_version : Option Nat
  deriving DecidableEq, Repr

deriving instance DecidableEq for Except

/-- An observable effect of one dispatcher step: a command sent to a router
task's command port (identified by its `dispatch` send-handle id), a forward
to the PoC worker, or a reply sent on a query's response channel.  Effects are
listed in emission order. -/
inductive Effect where
  | uplinkCmd (dispatch : Nat) (packet : Packet)
  | stopCmd (dispatch : Nat)
  | regionChangedCmd (dispatch : Nat) (region : Region)
  | gatewayChangedCmd (dispatch : Nat) (gateway : Option Nat)
  | pocPacketFwd (packet : Packet)
  | pocChallengeFwd (challenge : Nat)
  | configChangedFwd (keys : List String)
  | replyConfig (result : Except DispatchError (List Nat))
  | replyHeight (result : Except DispatchError HeightResponse)
  | replyRegion (result : Except DispatchError Region)
  deriving DecidableEq, Repr

/-- Embedding of `RouterKey` (`src/dispatcher.rs` lines 109-113). -/
structure RouterKey where
  oui : Nat
  uri : KeyedUri
  deriving DecidableEq, Repr

/-- Embedding of `RouterEntry` (`src/dispatcher.rs` lines 115-120): the admitting routing
descriptor and the send handle to the router task (the join handle is not
inspected by any of the operations modelled here). -/
structure RouterEntry where
  routing : Routing
  dispatch : Nat

/-- Embedding of `GATEWAY_MAX_BLOCK_AGE` in seconds (`src/dispatcher.rs` line 126). -/
def GATEWAY_MAX_BLOCK_AGE_SECS : Nat := 600

/-- Embedding of `Dispatcher` (`src/dispatcher.rs` lines 94-107).  The `routers` `HashMap`
is modelled as an association list with unique keys (iteration order is fixed
by the list; the `HashMap`'s is unspecified, and no property proved here
depends on it).  `next_dispatch` supplies fresh send-handle ids for router
tasks spawned by `start_router`; opaque handles (`keypair`,
`cache_settings`) are dropped. -/
structure Dispatcher where
  region : Region
  seed_gateways : List KeyedUri
  routing_height : Nat
  region_height : Nat
  gateway_retry : Nat
  routers : List (RouterKey × RouterEntry)
  default_routers : Option (List KeyedUri)
  next_dispatch : Nat

/-- Embedding of `HashMap::contains_key` on the association-list registry. -/
def containsKey (routers : List (RouterKey × RouterEntry)) (key : RouterKey) : Bool :=
  routers.any (fun kv => kv.1 == key)

/-! ### Dispatcher operations (`src/dispatcher.rs`) -/

/-- Embedding of `Dispatcher::handle_oui_routing_update` (`src/dispatcher.rs` lines
580-628).  First pass: for each URI of the incoming descriptor whose
`(oui, uri)` key is absent from the registry, spawn a router task
(`start_router` constructs a `RouterClient`, which can fail; `spawnOk`
resolves that external outcome — on failure the error is logged and the entry
dropped) and insert its entry.  Second pass (`retain`): drop every entry whose
key OUI equals the update's OUI and whose key URI is not contained in the
ENTRY'S STORED routing descriptor (`entry.routing.contains_uri(&key.uri)` in
the source), collecting the dropped entries' send handles; then send `stop` to
each collected handle. -/
def handle_oui_routing_update (spawnOk : RouterKey → Bool) (s : Dispatcher)
    (routing : Routing) : Dispatcher × List Effect :=
  let s1 := routing.uris.foldl
    (fun (st : Dispatcher) uri =>
      let key : RouterKey := ⟨routing.oui, uri⟩
      if containsKey st.routers key then st
      else if spawnOk key then
        { st with
          routers := st.routers ++ [(key, ⟨routing, st.next_dispatch⟩)]
          next_dispatch := st.next_dispatch + 1 }
      else st) s
  let removables := (s1.routers.filter
    (fun kv => kv.1.oui == routing.oui && !(kv.2.routing.contains_uri kv.1.uri))).map
    (fun kv => kv.2.dispatch)
  let kept := s1.routers.filter
    (fun kv => !(kv.1.oui == routing.oui && !(kv.2.routing.contains_uri kv.1.uri)))
  ({ s1 with routers := kept }, removables.map Effect.stopCmd)

/-- Embedding of `Dispatcher::handle_routing_update` (`src/dispatcher.rs` lines 543-578):
drop the update if its height is at or below the `routing_height` watermark;
otherwise decode the routing list (on decode failure log and return), process
each decodable descriptor through `handle_oui_routing_update` (skipping
descriptors that fail `Routing::from_proto`), and finally advance
`routing_height` to the update's height. -/
def handle_routing_update (spawnOk : RouterKey → Bool) (s : Dispatcher)
    (response : GatewayRespV1) : Dispatcher × List Effect :=
  if response.height ≤ s.routing_height then (s, [])
  else
    match response.routings with
    | .error _ => (s, [])
    | .ok routing_protos =>
      let step := routing_protos.foldl
        (fun (acc : Dispatcher × List Effect) proto =>
          match Routing.from_proto proto with
          | .ok routing =>
            let next := handle_oui_routing_update spawnOk acc.1 routing
            (next.1, acc.2 ++ next.2)
          | .error _ => acc) (s, [])
      ({ step.1 with routing_height := response.height }, step.2)

/-- Embedding of `Dispatcher::handle_region_update` (`src/dispatcher.rs` lines 510-541):
drop the update if its height is at or below the `region_height` watermark;
otherwise decode the region — on success advance `region_height`, set
`region`, and send `region_changed` to every registered router; on decode
failure log and change nothing. -/
def handle_region_update (s : Dispatcher) (response : GatewayRespV1) :
    Dispatcher × List Effect :=
  if response.height ≤ s.region_height then (s, [])
  else
    match response.region with
    | .ok region =>
      ({ s with region_height := response.height, region := region },
        s.routers.map (fun kv => Effect.regionChangedCmd kv.2.dispatch region))
    | .error _ => (s, [])

/-- Embedding of `Dispatcher::handle_uplink` (`src/dispatcher.rs` lines 467-488): forward
the packet to every registry entry whose routing descriptor matches the
packet's routing info, tracking whether any did; if none did and
`default_routers` is configured, iterate the registry again and forward to the
entries whose key URI is in the default-router list. -/
def handle_uplink (s : Dispatcher) (packet : Packet) : List Effect :=
  let pass1 := s.routers.foldl
    (fun (acc : Bool × List Effect) kv =>
      if kv.2.routing.matches_routing_info packet.routing then
        (true, acc.2 ++ [Effect.uplinkCmd kv.2.dispatch packet])
      else acc) (false, [])
  if pass1.1 then pass1.2
  else
    match s.default_routers with
    | some default_routers =>
      s.routers.foldl
        (fun acc kv =>
          if default_routers.contains kv.1.uri then
            acc ++ [Effect.uplinkCmd kv.2.dispatch packet]
          else acc) pass1.2
    | none => pass1.2

/-- The dispatcher-facing surface of an attached `GatewayService`: the
outcomes of the unary RPCs `handle_message` may perform on it. -/
structure GatewayModel where
  uri : KeyedUri
  configResult : List String → Except DispatchError (List Nat)
  versionResult : Except DispatchError (Option Nat)
  heightResult : Except DispatchError (Nat × Nat)

/-- Embedding of `Message` (`src/dispatcher.rs` lines 23-37); the reply channels are left
implicit (a reply becomes a `reply…` effect). -/
inductive Message where
  | uplink (packet : Packet)
  | pocPacket (packet : Packet)
  | config (keys : List String)
  | height
  | region

/-- Embedding of `Dispatcher::handle_message` (`src/dispatcher.rs` lines 429-465), with
`gateway : Option GatewayModel` standing for the optional attached validator.
`Config`/`Height` perform RPCs when attached and reply `no_service` when not;
`Height` treats a `version()` error as `None`; `Region` always replies with
the cached region. -/
def handle_message (s : Dispatcher) (message : Message)
    (gateway : Option GatewayModel) : List Effect :=
  match message with
  | .uplink packet => handle_uplink s packet
  | .pocPacket packet => [Effect.pocPacketFwd packet]
  | .config keys =>
    match gateway with
    | some gw => [Effect.replyConfig (gw.configResult keys)]
    | none => [Effect.replyConfig (.error .noService)]
  | .height =>
    match gateway with
    | some gw =>
      let gateway_version := match gw.versionResult with
        | .ok v => v
        | .error _ => none
      [Effect.replyHeight (gw.heightResult.map
        (fun p => ⟨gw.uri, p.1, p.2, gateway_version⟩))]
    | none => [Effect.replyHeight (.error .noService)]
  | .region => [Effect.replyRegion (.ok s.region)]

/-- Embedding of `Dispatcher::check_gateway` (`src/dispatcher.rs` lines 373-385):
propagate a failed `height()` RPC; otherwise error with
`gateway_service_check` exactly when the reported block age exceeds
`GATEWAY_MAX_BLOCK_AGE`. -/
def check_gateway (height_result : Except DispatchError (Nat × Nat)) :
    Except DispatchError Unit :=
  match height_result with
  | .error err => .error err
  | .ok (_, block_age) =>
    if block_age > GATEWAY_MAX_BLOCK_AGE_SECS then
      .error (.gatewayServiceCheck block_age GATEWAY_MAX_BLOCK_AGE_SECS)
    else .ok ()

/-- The `gateway_check.tick()` arm of the inner loop in
`Dispatcher::run_with_gateway` (`src/dispatcher.rs` lines 353-361): a healthy
check resets `gateway_retry` to 0 and stays in the loop (`true`); an error is
logged and returns from `run_with_gateway` (`false` = the attachment ends and
the outer loop proceeds to backoff). -/
def gateway_check_tick (s : Dispatcher)
    (height_result : Except DispatchError (Nat × Nat)) : Dispatcher × Bool :=
  match check_gateway height_result with
  | .ok _ => ({ s with gateway_retry := 0 }, true)
  | .error _ => (s, false)

/-- Embedding of `Dispatcher::prepare_gateway_change` (`src/dispatcher.rs` lines 393-427):
if shutdown has already triggered, do nothing; otherwise broadcast
`gateway_changed(None)` to all routers, reset both height watermarks to 0 and
bump `gateway_retry` (the subsequent backoff sleep and the optional handling
of one detached port message do not touch these fields). -/
def prepare_gateway_change (shutdown_triggered : Bool) (s : Dispatcher) :
    Dispatcher × List Effect :=
  if shutdown_triggered then (s, [])
  else
    ({ s with
        routing_height := 0
        region_height := 0
        gateway_retry := s.gateway_retry + 1 },
      s.routers.map (fun kv => Effect.gatewayChangedCmd kv.2.dispatch none))

/-! ### Specification-side definitions

These follow the spec's words and are compared against the embedded source
functions in the refinement theorems below. -/

/-- Following the spec's words for uplink fan-out (§4.6): "for every registry
entry whose routing descriptor matches `pkt.routing_info`, forward the packet
(clone per destination). If no entry matched AND `default_routers` is
configured, forward to every registry entry whose URI appears in
`default_routers`." -/
def handle_uplink_spec (s : Dispatcher) (packet : Packet) : List Effect :=
  let matched := s.routers.filter
    (fun kv => kv.2.routing.matches_routing_info packet.routing)
  if matched.isEmpty then
    match s.default_routers with
    | some default_routers =>
      (s.routers.filter (fun kv => default_routers.contains kv.1.uri)).map
        (fun kv => Effect.uplinkCmd kv.2.dispatch packet)
    | none => []
  else matched.map (fun kv => Effect.uplinkCmd kv.2.dispatch packet)

/-- The SF7…SF12 label of a spreading tag, following the spec's words
(§3 RegionParams): tags 1…6 are SF7…SF12; the invalid tag (0) and unknown
tags have no label. -/
def sf_label (v : Int) : Option String :=
  if v = 1 then some "SF7"
  else if v = 2 then some "SF8"
  else if v = 3 then some "SF9"
  else if v = 4 then some "SF10"
  else if v = 5 then some "SF11"
  else if v = 6 then some "SF12"
  else none

/-- Following the spec's words for `spreading(size)` (§3 RegionParams): "the
first tagged entry whose `max_packet_size ≥ size` mapped to its SF7…SF12
label", taking the tagged entries of the first channel. -/
def spreading_spec (rp : RegionParams) (size : Nat) : Option String :=
  let entries := match rp.region_params with
    | [] => []
    | p :: _ =>
      match p.spreading with
      | some m => m.tagged_spreading
      | none => []
  match entries.find? (fun ts => ts.max_packet_size ≥ size) with
  | some ts => sf_label ts.region_spreading
  | none => none

/-! ### Sample values used by the concrete witnesses below -/

def sampleState : Dispatcher where
  region := ⟨.us915⟩
  seed_gateways := []
  routing_height := 10
  region_height := 10
  gateway_retry := 3
  routers := []
  default_routers := none
  next_dispatch := 0

def staleResp : GatewayRespV1 where
  height := 5
  block_age := 0
  msg := some (.regionParamsStreamedResp 0)

def undecodableResp : GatewayRespV1 where
  height := 20
  block_age := 0
  msg := none

def uriA : KeyedUri := ⟨1, 10⟩
def uriB : KeyedUri := ⟨2, 20⟩
def uriC : KeyedUri := ⟨3, 30⟩

/-- The descriptor `(oui=1, uris=[A,B])` under which the registry of the C1
scenario was built (routing predicate irrelevant to the sweep). -/
def oldRouting : Routing := ⟨1, [uriA, uriB], fun _ => false⟩

/-- The incoming descriptor `(oui=1, uris=[B,C])` of the C1 scenario. -/
def newRouting : Routing := ⟨1, [uriB, uriC], fun _ => false⟩

/-- Registry `{(1,A), (1,B)}`, both entries admitted under `oldRouting`,
exactly as produced by a first routing update with `(oui=1, uris=[A,B])`. -/
def c1State : Dispatcher where
  region := ⟨.us915⟩
  seed_gateways := []
  routing_height := 10
  region_height := 0
  gateway_retry := 0
  routers := [(⟨1, uriA⟩, ⟨oldRouting, 0⟩), (⟨1, uriB⟩, ⟨oldRouting, 1⟩)]
  default_routers := none
  next_dispatch := 2

/-! ### Claim theorems -/

/-- Claim C1, counter-evidence: on the spec's own scenario — registry
`{(1,A),(1,B)}` admitted under descriptor `(oui=1, uris=[A,B])`, update
descriptor `(oui=1, uris=[B,C])` — the claim requires `(1,A)` to be removed
and sent `stop`, but the code's sweep tests the ENTRY'S stored descriptor
(`entry.routing.contains_uri(&key.uri)`), which still lists `A`, so the
registry becomes `{(1,A),(1,B),(1,C)}` and no `stop` is sent at all. -/
theorem routing_sweep_keeps_stale_entry :
    ((handle_oui_routing_update (fun _ => true) c1State newRouting).1.routers.map
      Prod.fst = [⟨1, uriA⟩, ⟨1, uriB⟩, ⟨1, uriC⟩]) ∧
    (handle_oui_routing_update (fun _ => true) c1State newRouting).2 = [] := by
  exact ⟨rfl, rfl⟩

/-- Claim C2: a routing update whose height is at or below `routing_height`
leaves the whole dispatcher state unchanged and emits nothing, and likewise a
region update whose height is at or below `region_height`; neither watermark
advances. -/
theorem stale_update_leaves_state_unchanged (spawnOk : RouterKey → Bool)
    (s : Dispatcher) (response : GatewayRespV1) :
    (response.height ≤ s.routing_height →
      handle_routing_update spawnOk s response = (s, [])) ∧
    (response.height ≤ s.region_height →
      handle_region_update s response = (s, [])) := by
  constructor
  · intro h
    simp [handle_routing_update, h]
  · intro h
    simp [handle_region_update, h]

/-- Witness for C2 at a concrete stale update (height 5 against watermarks
at 10). -/
theorem stale_update_leaves_state_unchanged_witness :
    handle_routing_update (fun _ => true) sampleState staleResp =
      (sampleState, []) ∧
    handle_region_update sampleState staleResp = (sampleState, []) :=
  ⟨(stale_update_leaves_state_unchanged (fun _ => true) sampleState staleResp).1
      (by decide),
    (stale_update_leaves_state_unchanged (fun _ => true) sampleState staleResp).2
      (by decide)⟩

/-- Claim C3: `prepare_gateway_change` with shutdown not triggered resets both
height watermarks to 0 (and nothing between it and the next attachment writes
them — `handle_message` has no access to the state). -/
theorem prepare_gateway_change_resets_heights (s : Dispatcher) :
    (prepare_gateway_change false s).1.routing_height = 0 ∧
    (prepare_gateway_change false s).1.region_height = 0 := by
  simp [prepare_gateway_change]

/-- Claim C5: `check_gateway` errors exactly when the `height()` RPC failed or
the reported block age strictly exceeds 600 seconds; on the liveness tick an
erroring check ends the attachment (the `false` flag: `run_with_gateway`
returns, demoting to backoff) with the state untouched, while a healthy check
stays attached and resets `gateway_retry` to 0. -/
theorem gateway_check_behavior (s : Dispatcher)
    (height_result : Except DispatchError (Nat × Nat)) :
    ((check_gateway height_result).isOk = false ↔
      (height_result.isOk = false ∨
        ∃ h a, height_result = .ok (h, a) ∧ 600 < a)) ∧
    ((check_gateway height_result).isOk = false →
      gateway_check_tick s height_result = (s, false)) ∧
    ((check_gateway height_result).isOk = true →
      gateway_check_tick s height_result = ({ s with gateway_retry := 0 }, true)) := by
  obtain err | ⟨h, a⟩ := height_result
  · refine ⟨⟨fun _ => Or.inl rfl, fun _ => rfl⟩, fun _ => rfl, fun hk => ?_⟩
    simp [check_gateway, Except.isOk, Except.toBool] at hk
  · by_cases ha : 600 < a
    · have hchk : check_gateway (.ok (h, a)) =
          .error (.gatewayServiceCheck a GATEWAY_MAX_BLOCK_AGE_SECS) := by
        simp [check_gateway, GATEWAY_MAX_BLOCK_AGE_SECS, ha]
      refine ⟨⟨fun _ => Or.inr ⟨h, a, rfl, ha⟩, fun _ => ?_⟩,
        fun _ => ?_, fun hk => ?_⟩
      · rw [hchk]
        rfl
      · simp [gateway_check_tick, hchk]
      · rw [hchk] at hk
        simp [Except.isOk, Except.toBool] at hk
    · have hchk : check_gateway (.ok (h, a)) = .ok () := by
        simp [check_gateway, GATEWAY_MAX_BLOCK_AGE_SECS, ha]
      refine ⟨⟨fun hk => ?_, fun hor => ?_⟩, fun hk => ?_, fun _ => ?_⟩
      · rw [hchk] at hk
        simp [Except.isOk, Except.toBool] at hk
      · rcases hor with hko | ⟨h', a', heq, ha'⟩
        · simp [Except.isOk, Except.toBool] at hko
        · cases heq
          exact absurd ha' ha
      · rw [hchk] at hk
        simp [Except.isOk, Except.toBool] at hk
      · simp [gateway_check_tick, hchk]

/-- Witness for C5: a stale block age (700 s) demotes with the state
untouched; a fresh one (50 s) stays attached and resets `gateway_retry`. -/
theorem gateway_check_behavior_witness :
    gateway_check_tick sampleState (.ok (100, 700)) = (sampleState, false) ∧
    gateway_check_tick sampleState (.ok (100, 50)) =
      ({ sampleState with gateway_retry := 0 }, true) :=
  ⟨(gateway_check_behavior sampleState (.ok (100, 700))).2.1 (by decide),
    (gateway_check_behavior sampleState (.ok (100, 50))).2.2 (by decide)⟩

/-- Claim C6: with no attached validator, `Config` and `Height` queries are
answered with a `no_service` error, while a `Region` query is answered with
the cached region — and the `Region` reply is `Ok` whether or not a validator
is attached. -/
theorem detached_query_replies (s : Dispatcher) (keys : List String)
    (gateway : Option GatewayModel) :
    handle_message s (.config keys) none =
      [Effect.replyConfig (.error .noService)] ∧
    handle_message s .height none = [Effect.replyHeight (.error .noService)] ∧
    handle_message s .region gateway = [Effect.replyRegion (.ok s.region)] :=
  ⟨rfl, rfl, rfl⟩

/-- Claim C9: a region update above the watermark whose payload fails to
decode changes nothing and notifies nobody; `region` and `region_height`
change only together, only to a successfully decoded region and its update
height (with the matching broadcast). -/
theorem region_update_only_on_decode (s : Dispatcher) (response : GatewayRespV1) :
    (s.region_height < response.height → response.region.isOk = false →
      handle_region_update s response = (s, [])) ∧
    (((handle_region_update s response).1.region = s.region ∧
        (handle_region_update s response).1.region_height = s.region_height ∧
        (handle_region_update s response).2 = []) ∨
      (∃ r, response.region = .ok r ∧ s.region_height < response.height ∧
        (handle_region_update s response).1.region = r ∧
        (handle_region_update s response).1.region_height = response.height ∧
        (handle_region_update s response).2 =
          s.routers.map (fun kv => Effect.regionChangedCmd kv.2.dispatch r))) := by
  by_cases hle : response.height ≤ s.region_height
  · refine ⟨fun hlt _ => absurd hle (by omega), Or.inl ?_⟩
    simp [handle_region_update, hle]
  · cases hr : response.region with
    | error e =>
      refine ⟨fun _ _ => ?_, Or.inl ?_⟩ <;>
        simp [handle_region_update, hle, hr]
    | ok r =>
      refine ⟨fun _ hko => by simp [Except.isOk, Except.toBool] at hko,
        Or.inr ⟨r, rfl, by omega, ?_, ?_, ?_⟩⟩ <;>
        simp [handle_region_update, hle, hr]

/-- Witness for C9: height 20 beats watermark 10 but the payload (no message
variant) does not decode, so nothing changes and nothing is sent. -/
theorem region_update_only_on_decode_witness :
    handle_region_update sampleState undecodableResp = (sampleState, []) :=
  (region_update_only_on_decode sampleState undecodableResp).1 (by decide)
    (by decide)

/-- Claim C10: with an empty per-channel parameter list, `max_eirp`,
`bandwidth`, `spreading` and `datarate` are all `none`, for every size. -/
theorem empty_region_params_all_none (rp : RegionParams)
    (h : rp.region_params = []) :
    rp.max_eirp = none ∧ rp.bandwidth = none ∧
    (∀ size : Nat, rp.spreading size = none) ∧
    (∀ size : Nat, rp.datarate size = none) := by
  obtain ⟨l⟩ := rp
  simp only [RegionParams.mk.injEq] at h  -- h : l = []
  subst h
  refine ⟨rfl, rfl, fun size => rfl, fun size => rfl⟩

/-- Witness for C10 at the empty parameter list and size 10. -/
theorem empty_region_params_all_none_witness :
    RegionParams.max_eirp ⟨[]⟩ = none ∧
    RegionParams.bandwidth ⟨[]⟩ = none ∧
    RegionParams.spreading ⟨[]⟩ 10 = none ∧
    RegionParams.datarate ⟨[]⟩ 10 = none :=
  ⟨(empty_region_params_all_none ⟨[]⟩ rfl).1,
    (empty_region_params_all_none ⟨[]⟩ rfl).2.1,
    (empty_region_params_all_none ⟨[]⟩ rfl).2.2.1 10,
    (empty_region_params_all_none ⟨[]⟩ rfl).2.2.2 10⟩

/-! Helper lemmas for the uplink fan-out refinement (C4). -/

theorem foldl_any_filter {α β : Type} (q : α → Bool) (f : α → β) (l : List α)
    (b : Bool) (es : List β) :
    l.foldl (fun (acc : Bool × List β) x =>
        if q x then (true, acc.2 ++ [f x]) else acc) (b, es) =
      (b || l.any q, es ++ (l.filter q).map f) := by
  induction l generalizing b es with
  | nil => simp
  | cons hd tl ih =>
    cases h : q hd <;> simp [h, ih, List.filter_cons]

theorem foldl_append_filter {α β : Type} (q : α → Bool) (f : α → β)
    (l : List α) (es : List β) :
    l.foldl (fun acc x => if q x then acc ++ [f x] else acc) es =
      es ++ (l.filter q).map f := by
  induction l generalizing es with
  | nil => simp
  | cons hd tl ih =>
    cases h : q hd <;> simp [h, ih, List.filter_cons]

theorem filter_eq_nil_of_any_eq_false {α : Type} (p : α → Bool) (l : List α)
    (h : l.any p = false) : l.filter p = [] := by
  induction l with
  | nil => rfl
  | cons hd tl ih =>
    simp only [List.any_cons, Bool.or_eq_false_iff] at h
    simp [List.filter_cons, h.1, ih h.2]

theorem filter_isEmpty_false_of_any_eq_true {α : Type} (p : α → Bool)
    (l : List α) (h : l.any p = true) : (l.filter p).isEmpty = false := by
  induction l with
  | nil => simp at h
  | cons hd tl ih =>
    cases hp : p hd
    · simp only [List.any_cons, hp, Bool.false_or] at h
      simp [List.filter_cons, hp, ih h]
    · simp [List.filter_cons, hp]

/-- Claim C4: `handle_uplink` forwards the packet to exactly the registry
entries whose routing descriptor matches the packet's routing info; if and
only if none matched and `default_routers` is configured, it forwards instead
to exactly the registry entries whose key URI appears in `default_routers`
(and to nobody otherwise) — precisely the spec-side `handle_uplink_spec`,
which draws targets only from the registry. -/
theorem handle_uplink_matches_spec (s : Dispatcher) (packet : Packet) :
    handle_uplink s packet = handle_uplink_spec s packet := by
  simp only [handle_uplink, handle_uplink_spec]
  rw [foldl_any_filter
    (fun (kv : RouterKey × RouterEntry) =>
      kv.2.routing.matches_routing_info packet.routing)
    (fun kv => Effect.uplinkCmd kv.2.dispatch packet)]
  simp only [Bool.false_or, List.nil_append]
  cases hany : s.routers.any
      (fun kv => kv.2.routing.matches_routing_info packet.routing)
  · have hfil := filter_eq_nil_of_any_eq_false
      (fun kv => kv.2.routing.matches_routing_info packet.routing) s.routers hany
    cases hdr : s.default_routers with
    | none => simp [hfil]
    | some drs =>
      have hd2 := foldl_append_filter
        (fun (kv : RouterKey × RouterEntry) => drs.contains kv.1.uri)
        (fun kv => Effect.uplinkCmd kv.2.dispatch packet) s.routers []
      simp only [List.nil_append] at hd2
      simp only [hfil, List.map_nil, List.isEmpty_nil]
      simp
      simp at hd2
      exact hd2
  · have hne := filter_isEmpty_false_of_any_eq_true
      (fun kv => kv.2.routing.matches_routing_info packet.routing) s.routers hany
    simp [hne]

/-- Helper for C7: the source's `spreading_to_str` agrees with the spec-side
SF7…SF12 labelling of the raw tag. -/
theorem spreading_to_str_eq_sf_label (ts : TaggedSpreading) :
    spreading_to_str ts = sf_label ts.region_spreading := by
  unfold spreading_to_str sf_label RegionSpreading.from_i32
  by_cases h0 : ts.region_spreading = 0
  · simp [h0]
  by_cases h1 : ts.region_spreading = 1
  · simp [h0, h1]
  by_cases h2 : ts.region_spreading = 2
  · simp [h0, h1, h2]
  by_cases h3 : ts.region_spreading = 3
  · simp [h0, h1, h2, h3]
  by_cases h4 : ts.region_spreading = 4
  · simp [h0, h1, h2, h3, h4]
  by_cases h5 : ts.region_spreading = 5
  · simp [h0, h1, h2, h3, h4, h5]
  by_cases h6 : ts.region_spreading = 6
  · simp [h0, h1, h2, h3, h4, h5, h6]
  simp [h0, h1, h2, h3, h4, h5, h6]

/-- Claim C7: `spreading(size)` is the SF7…SF12 label of the first tagged
entry of the first channel whose `max_packet_size ≥ size` (`none` on an
invalid tag or when no entry qualifies), and `datarate(size)` is
`"<SF>BW<bandwidth/1000>"` exactly when both `spreading(size)` and
`bandwidth()` are defined, `none` otherwise. -/
theorem spreading_and_datarate_follow_spec (rp : RegionParams) (size : Nat) :
    rp.spreading size = spreading_spec rp size ∧
    (rp.datarate size = none ↔
      (rp.spreading size = none ∨ rp.bandwidth = none)) ∧
    (∀ sf bw, rp.spreading size = some sf → rp.bandwidth = some bw →
      rp.datarate size = some (sf ++ "BW" ++ toString (bw / 1000))) := by
  refine ⟨?_, ?_, ?_⟩
  · obtain ⟨l⟩ := rp
    cases l with
    | nil => rfl
    | cons p rest =>
      cases hp : p.spreading with
      | none => simp [RegionParams.spreading, spreading_spec, hp]
      | some m =>
        cases hf : m.tagged_spreading.find?
            (fun ts => size ≤ ts.max_packet_size) with
        | none =>
          simp [RegionParams.spreading, spreading_spec, hp, ge_iff_le, hf]
        | some ts =>
          simp [RegionParams.spreading, spreading_spec, hp, ge_iff_le, hf,
            spreading_to_str_eq_sf_label]
  · cases hs : rp.spreading size with
    | none => simp [RegionParams.datarate, hs]
    | some sf =>
      cases hb : rp.bandwidth with
      | none => simp [RegionParams.datarate, hs, hb]
      | some bw => simp [RegionParams.datarate, hs, hb]
  · intro sf bw hsf hbw
    simp [RegionParams.datarate, hsf, hbw]

/-- Witness for C7 at one channel of bandwidth 125000 Hz with tagged entries
SF7 (size ≤ 50) and SF8 (size ≤ 100), for packet size 60. -/
theorem spreading_and_datarate_follow_spec_witness :
    RegionParams.spreading ⟨[⟨30, 125000, some ⟨[⟨1, 50⟩, ⟨2, 100⟩]⟩⟩]⟩ 60 =
      some "SF8" ∧
    RegionParams.datarate ⟨[⟨30, 125000, some ⟨[⟨1, 50⟩, ⟨2, 100⟩]⟩⟩]⟩ 60 =
      some "SF8BW125" := by
  have h := spreading_and_datarate_follow_spec
    ⟨[⟨30, 125000, some ⟨[⟨1, 50⟩, ⟨2, 100⟩]⟩⟩]⟩ 60
  refine ⟨by decide, ?_⟩
  have h3 := h.2.2 "SF8" 125000 (by decide) (by decide)
  exact h3.trans (by decide)

/-- Claim C8: parse∘render is the identity on the closed region set and
`from_i32` inverts the integer form; a parse that succeeds only does so on the
rendered form of some tag (so any string outside the set fails), and likewise
for integers. -/
theorem region_codec_round_trips :
    (∀ r : Region, Region.parse (Region.render r) = .ok r) ∧
    (∀ r : Region, Region.from_i32 (Region.to_i32 r) = .ok r) ∧
    (∀ s : String, (∃ r, Region.parse s = .ok r ∧ s = Region.render r) ∨
      Region.parse s = .error ("unsupported region: " ++ s)) ∧
    (∀ i : Int, (∃ r, Region.from_i32 i = .ok r ∧ i = Region.to_i32 r) ∨
      Region.from_i32 i = .error ("unsupported region " ++ toString i)) := by
  refine ⟨?_, ?_, ?_, ?_⟩
  · intro r
    obtain ⟨p⟩ := r
    cases p <;> decide
  · intro r
    obtain ⟨p⟩ := r
    cases p <;> decide
  · intro s
    by_cases h1 : s = "US915"
    · exact Or.inl ⟨⟨.us915⟩, by subst h1; decide, by subst h1; decide⟩
    by_cases h2 : s = "EU868"
    · exact Or.inl ⟨⟨.eu868⟩, by subst h2; decide, by subst h2; decide⟩
    by_cases h3 : s = "EU433"
    · exact Or.inl ⟨⟨.eu433⟩, by subst h3; decide, by subst h3; decide⟩
    by_cases h4 : s = "CN470"
    · exact Or.inl ⟨⟨.cn470⟩, by subst h4; decide, by subst h4; decide⟩
    by_cases h5 : s = "CN779"
    · exact Or.inl ⟨⟨.cn779⟩, by subst h5; decide, by subst h5; decide⟩
    by_cases h6 : s = "AU915"
    · exact Or.inl ⟨⟨.au915⟩, by subst h6; decide, by subst h6; decide⟩
    by_cases h7 : s = "AS923_1"
    · exact Or.inl ⟨⟨.as923_1⟩, by subst h7; decide, by subst h7; decide⟩
    by_cases h8 : s = "AS923_1B"
    · exact Or.inl ⟨⟨.as923_1b⟩, by subst h8; decide, by subst h8; decide⟩
    by_cases h9 : s = "AS923_2"
    · exact Or.inl ⟨⟨.as923_2⟩, by subst h9; decide, by subst h9; decide⟩
    by_cases h10 : s = "AS923_3"
    · exact Or.inl ⟨⟨.as923_3⟩, by subst h10; decide, by subst h10; decide⟩
    by_cases h11 : s = "AS923_4"
    · exact Or.inl ⟨⟨.as923_4⟩, by subst h11; decide, by subst h11; decide⟩
    by_cases h12 : s = "KR920"
    · exact Or.inl ⟨⟨.kr920⟩, by subst h12; decide, by subst h12; decide⟩
    by_cases h13 : s = "IN865"
    · exact Or.inl ⟨⟨.in865⟩, by subst h13; decide, by subst h13; decide⟩
    by_cases h14 : s = "CD900_1A"
    · exact Or.inl ⟨⟨.cd900_1a⟩, by subst h14; decide, by subst h14; decide⟩
    refine Or.inr ?_
    simp only [Region.parse]
    rw [if_neg h1, if_neg h2, if_neg h3, if_neg h4, if_neg h5, if_neg h6,
      if_neg h7, if_neg h8, if_neg h9, if_neg h10, if_neg h11, if_neg h12,
      if_neg h13, if_neg h14]
  · intro i
    by_cases h1 : i = 0
    · exact Or.inl ⟨⟨.us915⟩, by subst h1; decide, by subst h1; decide⟩
    by_cases h2 : i = 1
    · exact Or.inl ⟨⟨.eu868⟩, by subst h2; decide, by subst h2; decide⟩
    by_cases h3 : i = 2
    · exact Or.inl ⟨⟨.eu433⟩, by subst h3; decide, by subst h3; decide⟩
    by_cases h4 : i = 3
    · exact Or.inl ⟨⟨.cn470⟩, by subst h4; decide, by subst h4; decide⟩
    by_cases h5 : i = 4
    · exact Or.inl ⟨⟨.cn779⟩, by subst h5; decide, by subst h5; decide⟩
    by_cases h6 : i = 5
    · exact Or.inl ⟨⟨.au915⟩, by subst h6; decide, by subst h6; decide⟩
    by_cases h7 : i = 6
    · exact Or.inl ⟨⟨.as923_1⟩, by subst h7; decide, by subst h7; decide⟩
    by_cases h8 : i = 7
    · exact Or.inl ⟨⟨.kr920⟩, by subst h8; decide, by subst h8; decide⟩
    by_cases h9 : i = 8
    · exact Or.inl ⟨⟨.in865⟩, by subst h9; decide, by subst h9; decide⟩
    by_cases h10 : i = 9
    · exact Or.inl ⟨⟨.as923_2⟩, by subst h10; decide, by subst h10; decide⟩
    by_cases h11 : i = 10
    · exact Or.inl ⟨⟨.as923_3⟩, by subst h11; decide, by subst h11; decide⟩
    by_cases h12 : i = 11
    · exact Or.inl ⟨⟨.as923_4⟩, by subst h12; decide, by subst h12; decide⟩
    by_cases h13 : i = 12
    · exact Or.inl ⟨⟨.as923_1b⟩, by subst h13; decide, by subst h13; decide⟩
    by_cases h14 : i = 13
    · exact Or.inl ⟨⟨.cd900_1a⟩, by subst h14; decide, by subst h14; decide⟩
    refine Or.inr ?_
    simp only [Region.from_i32, ProtoRegion.from_i32]
    rw [if_neg h1, if_neg h2, if_neg h3, if_neg h4, if_neg h5, if_neg h6,
      if_neg h7, if_neg h8, if_neg h9, if_neg h10, if_neg h11, if_neg h12,
      if_neg h13, if_neg h14]

end GatewayRs
